import Mathlib

/-!
Shallow embedding of the session-management and worker-bridge layer of
`talking_rock` (files `src/apps/reos-tauri/src-tauri/src/auth.rs` and
`src/apps/reos-tauri/src-tauri/src/main.rs`).

Time is modelled by an explicit `now : Nat` parameter (seconds), standing for
the monotonic `Instant` clock; `Instant::elapsed()` becomes truncated
subtraction `now - last_activity`.  Stateful Rust code becomes explicit state
passing: each Tauri command takes the `SessionStore` (and the optional worker
handle) as input and returns the updated state alongside its result.  Lock
poisoning is a concurrency failure and is not modelled: the single-threaded
embedding always acquires the lock.
-/

namespace TalkingRock

/-- Rust `SESSION_IDLE_TIMEOUT`: session idle timeout, 15 minutes (in seconds). -/
def SESSION_IDLE_TIMEOUT : Nat := 15 * 60

/-- Rust `Session`: a user session with authentication state (auth.rs). -/
structure Session where
  token : String
  username : String
  created_at : Nat
  last_activity : Nat
deriving DecidableEq, Repr

/-- Rust `Session::is_expired`: `self.last_activity.elapsed() > SESSION_IDLE_TIMEOUT`. -/
def Session.is_expired (s : Session) (now : Nat) : Bool :=
  SESSION_IDLE_TIMEOUT < now - s.last_activity

/-- Rust `Session::refresh`: `self.last_activity = Instant::now()`. -/
def Session.refresh (s : Session) (now : Nat) : Session :=
  { s with last_activity := now }

/-- Association-list lookup, modelling `HashMap::get` (keys are unique in a
`HashMap`, so first-match lookup agrees with map semantics). -/
def assocLookup {α : Type} : List (String × α) → String → Option α
  | [], _ => none
  | (k, v) :: rest, key => if k = key then some v else assocLookup rest key

/-- Association-list insert, modelling `HashMap::insert`: replaces the value
of an existing key, otherwise appends a fresh binding. -/
def assocInsert {α : Type} : List (String × α) → String → α → List (String × α)
  | [], key, v => [(key, v)]
  | (k, w) :: rest, key, v =>
      if k = key then (key, v) :: rest else (k, w) :: assocInsert rest key v

/-- Association-list removal, modelling `HashMap::remove`. -/
def assocRemove {α : Type} : List (String × α) → String → List (String × α)
  | [], _ => []
  | (k, w) :: rest, key => if k = key then rest else (k, w) :: assocRemove rest key

/-- Rust `SessionStore`: token-keyed map of sessions, `HashMap<String, Session>`
modelled as an association list. -/
structure SessionStore where
  sessions : List (String × Session)
deriving DecidableEq, Repr

/-- Rust `SessionStore::new`. -/
def SessionStore.new : SessionStore := ⟨[]⟩

/-- Rust `SessionStore::insert`: `self.sessions.insert(session.token.clone(), session)`. -/
def SessionStore.insert (st : SessionStore) (session : Session) : SessionStore :=
  ⟨assocInsert st.sessions session.token session⟩

/-- Rust `SessionStore::get`: `self.sessions.get(token).filter(|s| !s.is_expired())`. -/
def SessionStore.get (st : SessionStore) (token : String) (now : Nat) : Option Session :=
  match assocLookup st.sessions token with
  | some s => if s.is_expired now then none else some s
  | none => none

/-- Rust `SessionStore::get_mut`: `self.sessions.get_mut(token).filter(|s| !s.is_expired())`.
The mutable reference itself cannot mutate anything; writes through it are
modelled by `refreshLiveEntries` below. -/
def SessionStore.get_mut (st : SessionStore) (token : String) (now : Nat) : Option Session :=
  match assocLookup st.sessions token with
  | some s => if s.is_expired now then none else some s
  | none => none

/-- Rust `SessionStore::remove`: `self.sessions.remove(token).is_some()`; returns
the shrunken store together with the presence flag. -/
def SessionStore.remove (st : SessionStore) (token : String) : SessionStore × Bool :=
  (⟨assocRemove st.sessions token⟩, (assocLookup st.sessions token).isSome)

/-- Rust `SessionStore::cleanup_expired`: `self.sessions.retain(|_, s| !s.is_expired())`. -/
def SessionStore.cleanup_expired (st : SessionStore) (now : Nat) : SessionStore :=
  ⟨st.sessions.filter (fun p => ! p.2.is_expired now)⟩

/-- State-passing translation of `if let Some(session) = store.get_mut(token)
\x7b session.refresh() \x7d`: the first entry with the given key is refreshed
when it is live, and nothing else changes. -/
def refreshLiveEntries : List (String × Session) → String → Nat → List (String × Session)
  | [], _, _ => []
  | (k, s) :: rest, token, now =>
      if k = token then
        (if s.is_expired now then (k, s) :: rest else (k, s.refresh now) :: rest)
      else (k, s) :: refreshLiveEntries rest token now

/-- Rust `AuthResult`: result of a login attempt, parsed from the worker. -/
structure AuthResult where
  success : Bool
  session_token : Option String
  username : Option String
  error : Option String
deriving DecidableEq, Repr

/-- Rust `SessionInfo`: username plus truncated token for logging. -/
structure SessionInfo where
  username : String
  session_id : String
deriving DecidableEq, Repr

/-- Rust `create_session`: both timestamps set to `Instant::now()`. -/
def create_session (token : String) (username : String) (now : Nat) : Session :=
  { token := token, username := username, created_at := now, last_activity := now }

/-- Rust `validate_session`: `store.get(token)` mapped to a `SessionInfo` whose
`session_id` is `token.chars().take(16).collect()`. -/
def validate_session (store : SessionStore) (token : String) (now : Nat) : Option SessionInfo :=
  (store.get token now).map (fun session =>
    { username := session.username, session_id := String.take token 16 })

/-- Rust `serde_json::Value`. Objects are association lists with unique keys
(`serde_json::Map`); only key-based lookup is ever observed, so ordering is
irrelevant to the statements below. -/
inductive Json where
  | null : Json
  | bool : Bool → Json
  | num : Int → Json
  | str : String → Json
  | arr : List Json → Json
  | obj : List (String × Json) → Json

/-- serde deserialization of an `Option<String>` field: a missing field or an
explicit `null` is `None`; a string is `Some`; anything else is a type error. -/
def parseOptString (v : Option Json) : Except String (Option String) :=
  match v with
  | none => Except.ok none
  | some Json.null => Except.ok none
  | some (Json.str s) => Except.ok (some s)
  | some _ => Except.error "invalid type"

/-- serde deserialization of `AuthResult` (`serde_json::from_value`): an
object with a required boolean `success` and optional string fields
`session_token`, `username`, `error`. -/
def parseAuthResult (v : Json) : Except String AuthResult :=
  match v with
  | Json.obj fields => do
      let success ←
        (match assocLookup fields "success" with
          | some (Json.bool b) => Except.ok b
          | some _ => Except.error "invalid type"
          | none => Except.error "missing field success")
      let session_token ← parseOptString (assocLookup fields "session_token")
      let username ← parseOptString (assocLookup fields "username")
      let error ← parseOptString (assocLookup fields "error")
      Except.ok { success := success, session_token := session_token,
                  username := username, error := error }
  | _ => Except.error "invalid type"

/-- Modelled from the spec: `kernel.rs` (the Worker Bridge / `KernelProcess`)
is not under `src/`.  Per spec section 4.4, a handle owns the child process
and its pipe pair; `request(method, params)` writes one framed request to the
worker's input stream and returns the matching response.  The handle is
modelled by the sequence of requests written to the worker's input stream,
and the worker's replies by a response oracle passed as a parameter. -/
structure KernelProcess where
  sent : List (String × Json)

/-- Modelled from the spec: `KernelProcess::start` spawns the child with a
fresh pipe pair (spawn failure is a transport error not exercised by any
claim, so a start here always yields a live handle). -/
def KernelProcess.start : KernelProcess := ⟨[]⟩

/-- Modelled from the spec: `KernelProcess::request` writes the framed
request to the worker's input stream and returns the worker's response
(`Except.error` standing for the bridge's transport errors). -/
def KernelProcess.request (p : KernelProcess)
    (resp : String → Json → Except String Json)
    (method : String) (params : Json) : KernelProcess × Except String Json :=
  (⟨p.sent ++ [(method, params)]⟩, resp method params)

/-- Requests so far written to the worker's input stream, for an optional
handle (an absent handle has written nothing). -/
def kernelSent : Option KernelProcess → List (String × Json)
  | none => []
  | some p => p.sent

/-- Result of the `auth_login` command: the command's return value plus the
post-states of the session store and the worker handle. -/
structure LoginOut where
  result : Except String AuthResult
  store : SessionStore
  kernel : Option KernelProcess

/-- Rust `auth_login` (main.rs): shape-validates the username (`username.len()` is
the UTF-8 byte length in Rust), lazily starts the worker, forwards
credentials to `auth/login`, parses the response, and on success with both a
token and a username stores a fresh session. -/
def auth_login (kernel : Option KernelProcess) (store : SessionStore)
    (resp : String → Json → Except String Json) (now : Nat)
    (username password : String) : LoginOut :=
  if username.isEmpty || 32 < username.utf8ByteSize then
    ⟨Except.ok { success := false, session_token := none, username := none,
                 error := some "Invalid username" }, store, kernel⟩
  else
    let proc := match kernel with
      | none => KernelProcess.start
      | some p => p
    let out := proc.request resp "auth/login"
      (Json.obj [("username", Json.str username), ("password", Json.str password)])
    match out.2 with
    | Except.error e => ⟨Except.error e, store, some out.1⟩
    | Except.ok result =>
        match parseAuthResult result with
        | Except.error e =>
            ⟨Except.error ("Failed to parse auth response: " ++ e), store, some out.1⟩
        | Except.ok auth_result =>
            if auth_result.success then
              match auth_result.session_token, auth_result.username with
              | some token, some uname =>
                  ⟨Except.ok auth_result,
                   store.insert (create_session token uname now), some out.1⟩
              | _, _ => ⟨Except.ok auth_result, store, some out.1⟩
            else ⟨Except.ok auth_result, store, some out.1⟩

/-- Rust `auth_logout` (main.rs): removes the session, failing when absent. -/
def auth_logout (store : SessionStore) (session_token : String) :
    Except String Unit × SessionStore :=
  let out := store.remove session_token
  if out.2 then (Except.ok (), out.1) else (Except.error "Session not found", out.1)

/-- Rust `auth_validate` (main.rs): `store.get(&session_token).is_some()`; the
store is only read, so the post-state is the input store. -/
def auth_validate (store : SessionStore) (session_token : String) (now : Nat) :
    Bool × SessionStore :=
  ((store.get session_token now).isSome, store)

/-- Rust `auth_refresh` (main.rs): `get_mut` then `refresh`, failing when the
token is absent or expired. -/
def auth_refresh (store : SessionStore) (session_token : String) (now : Nat) :
    Except String Unit × SessionStore :=
  match store.get_mut session_token now with
  | some _ => (Except.ok (), ⟨refreshLiveEntries store.sessions session_token now⟩)
  | none => (Except.error "Session not found or expired", store)

/-- Rust `auth_get_session` (main.rs). -/
def auth_get_session (store : SessionStore) (session_token : String) (now : Nat) :
    Except String SessionInfo :=
  match validate_session store session_token now with
  | some info => Except.ok info
  | none => Except.error "Session not found"

/-- Result of the `kernel_request` command: the command's return value plus
the post-states of the session store and the worker handle. -/
structure KernelOut where
  result : Except String Json
  store : SessionStore
  kernel : Option KernelProcess

/-- Rust `kernel_request` (main.rs): validates the session (zero trust), refreshes
its activity, normalizes `params` to an object, injects the `__session`
field, lazily starts the worker and dispatches the enriched request. -/
def kernel_request (kernel : Option KernelProcess) (store : SessionStore)
    (resp : String → Json → Except String Json) (now : Nat)
    (session_token method : String) (params : Json) : KernelOut :=
  match validate_session store session_token now with
  | none => ⟨Except.error "Invalid or expired session", store, kernel⟩
  | some session_info =>
      let store2 : SessionStore := ⟨refreshLiveEntries store.sessions session_token now⟩
      let enriched_params : Json :=
        match params with
        | Json.obj map => Json.obj map
        | Json.null => Json.obj []
        | other => Json.obj [("value", other)]
      let enriched_params : Json :=
        match enriched_params with
        | Json.obj map =>
            Json.obj (assocInsert map "__session"
              (Json.obj [("username", Json.str session_info.username),
                         ("session_id", Json.str session_info.session_id)]))
        | j => j
      let proc := match kernel with
        | none => KernelProcess.start
        | some p => p
      let out := proc.request resp method enriched_params
      ⟨out.2, store2, some out.1⟩

/-- The `__session` object injected by `kernel_request` for a validated
session `s` and the caller-supplied token. -/
def sessionObj (s : Session) (token : String) : Json :=
  Json.obj [("username", Json.str s.username),
            ("session_id", Json.str (String.take token 16))]

/-- Store well-formedness at clock value `now`: every stored session has
`created_at ≤ last_activity` and no timestamp exceeds the current clock
(the monotonic clock never hands out a value below a stored one). -/
def StoreWf (st : SessionStore) (now : Nat) : Prop :=
  ∀ p ∈ st.sessions, p.2.created_at ≤ p.2.last_activity ∧ p.2.last_activity ≤ now

/-! ### Helper lemmas about the association-list map operations -/

theorem assocLookup_insert_self {α : Type} (l : List (String × α)) (k : String) (v : α) :
    assocLookup (assocInsert l k v) k = some v := by
  induction l with
  | nil => simp [assocInsert, assocLookup]
  | cons hd tl ih =>
      by_cases h : hd.1 = k
      · simp [assocInsert, assocLookup, h]
      · simp [assocInsert, assocLookup, h, ih]

theorem assocLookup_insert_ne {α : Type} (l : List (String × α)) (k k' : String) (v : α)
    (h : k' ≠ k) : assocLookup (assocInsert l k v) k' = assocLookup l k' := by
  induction l with
  | nil => simp [assocInsert, assocLookup, Ne.symm h]
  | cons hd tl ih =>
      by_cases hk : hd.1 = k
      · simp only [assocInsert, hk, if_pos rfl, assocLookup]
        rw [if_neg (Ne.symm h), if_neg (Ne.symm h)]
      · simp only [assocInsert, if_neg hk, assocLookup]
        by_cases hk' : hd.1 = k'
        · rw [if_pos hk', if_pos hk']
        · rw [if_neg hk', if_neg hk', ih]

theorem mem_assocInsert {α : Type} (l : List (String × α)) (k : String) (v : α)
    (p : String × α) (hp : p ∈ assocInsert l k v) : p = (k, v) ∨ p ∈ l := by
  induction l with
  | nil => simpa [assocInsert] using hp
  | cons hd tl ih =>
      by_cases h : hd.1 = k
      · simp only [assocInsert, if_pos h, List.mem_cons] at hp
        rcases hp with hp | hp
        · exact Or.inl hp
        · exact Or.inr (List.mem_cons_of_mem _ hp)
      · simp only [assocInsert, if_neg h, List.mem_cons] at hp
        rcases hp with hp | hp
        · exact Or.inr (hp ▸ List.mem_cons_self _ _)
        · rcases ih hp with hq | hq
          · exact Or.inl hq
          · exact Or.inr (List.mem_cons_of_mem _ hq)

theorem mem_refreshLiveEntries (l : List (String × Session)) (token : String) (now : Nat)
    (p : String × Session) (hp : p ∈ refreshLiveEntries l token now) :
    p ∈ l ∨ ∃ s : Session, (token, s) ∈ l ∧ p = (token, s.refresh now) := by
  induction l with
  | nil => simp [refreshLiveEntries] at hp
  | cons hd tl ih =>
      by_cases h : hd.1 = token
      · by_cases he : hd.2.is_expired now
        · simp only [refreshLiveEntries, if_pos h, if_pos he, List.mem_cons] at hp
          rcases hp with hp | hp
          · exact Or.inl (hp ▸ List.mem_cons_self _ _)
          · exact Or.inl (List.mem_cons_of_mem _ hp)
        · simp only [refreshLiveEntries, if_pos h, if_neg he, List.mem_cons] at hp
          rcases hp with hp | hp
          · refine Or.inr ⟨hd.2, ?_, ?_⟩
            · exact (show (token, hd.2) = hd by rw [← h]) ▸ List.mem_cons_self _ _
            · rw [hp, h]
          · exact Or.inl (List.mem_cons_of_mem _ hp)
      · simp only [refreshLiveEntries, if_neg h, List.mem_cons] at hp
        rcases hp with hp | hp
        · exact Or.inl (hp ▸ List.mem_cons_self _ _)
        · rcases ih hp with hq | ⟨s, hs, hps⟩
          · exact Or.inl (List.mem_cons_of_mem _ hq)
          · exact Or.inr ⟨s, List.mem_cons_of_mem _ hs, hps⟩

theorem get_eq_some_of_live (st : SessionStore) (token : String) (now : Nat) (s : Session)
    (hs : assocLookup st.sessions token = some s) (he : s.is_expired now = false) :
    st.get token now = some s := by
  simp [SessionStore.get, hs, he]

theorem validate_session_some_of_live (st : SessionStore) (token : String) (now : Nat)
    (s : Session) (hs : assocLookup st.sessions token = some s)
    (he : s.is_expired now = false) :
    validate_session st token now =
      some { username := s.username, session_id := String.take token 16 } := by
  simp [validate_session, get_eq_some_of_live st token now s hs he]

theorem kernel_request_valid_dispatch (kernel : Option KernelProcess) (store : SessionStore)
    (resp : String → Json → Except String Json) (now : Nat)
    (token method : String) (params : Json) (s : Session)
    (hs : assocLookup store.sessions token = some s) (he : s.is_expired now = false) :
    ∃ base : List (String × Json),
      kernel_request kernel store resp now token method params =
        ⟨resp method (Json.obj (assocInsert base "__session" (sessionObj s token))),
         ⟨refreshLiveEntries store.sessions token now⟩,
         some ⟨kernelSent kernel ++
           [(method, Json.obj (assocInsert base "__session" (sessionObj s token)))]⟩⟩ ∧
      (∀ map, params = Json.obj map → base = map) ∧
      (params = Json.null → base = []) ∧
      ((∀ map, params ≠ Json.obj map) → params ≠ Json.null → base = [("value", params)]) := by
  have hv := validate_session_some_of_live store token now s hs he
  cases params with
  | obj map =>
      refine ⟨map, ?_, ?_, ?_, ?_⟩
      · cases kernel <;>
          simp [kernel_request, hv, KernelProcess.request, KernelProcess.start,
            kernelSent, sessionObj]
      · intro m hm
        cases hm
        rfl
      · intro h
        exact nomatch h
      · intro hno _
        exact absurd rfl (hno map)
  | null =>
      refine ⟨[], ?_, ?_, ?_, ?_⟩
      · cases kernel <;>
          simp [kernel_request, hv, KernelProcess.request, KernelProcess.start,
            kernelSent, sessionObj]
      · intro m hm
        exact nomatch hm
      · intro _
        rfl
      · intro _ hnn
        exact absurd rfl hnn
  | bool b =>
      refine ⟨[("value", Json.bool b)], ?_, ?_, ?_, ?_⟩
      · cases kernel <;>
          simp [kernel_request, hv, KernelProcess.request, KernelProcess.start,
            kernelSent, sessionObj]
      · intro m hm
        exact nomatch hm
      · intro h
        exact nomatch h
      · intro _ _
        rfl
  | num n =>
      refine ⟨[("value", Json.num n)], ?_, ?_, ?_, ?_⟩
      · cases kernel <;>
          simp [kernel_request, hv, KernelProcess.request, KernelProcess.start,
            kernelSent, sessionObj]
      · intro m hm
        exact nomatch hm
      · intro h
        exact nomatch h
      · intro _ _
        rfl
  | str v =>
      refine ⟨[("value", Json.str v)], ?_, ?_, ?_, ?_⟩
      · cases kernel <;>
          simp [kernel_request, hv, KernelProcess.request, KernelProcess.start,
            kernelSent, sessionObj]
      · intro m hm
        exact nomatch hm
      · intro h
        exact nomatch h
      · intro _ _
        rfl
  | arr xs =>
      refine ⟨[("value", Json.arr xs)], ?_, ?_, ?_, ?_⟩
      · cases kernel <;>
          simp [kernel_request, hv, KernelProcess.request, KernelProcess.start,
            kernelSent, sessionObj]
      · intro m hm
        exact nomatch hm
      · intro h
        exact nomatch h
      · intro _ _
        rfl

theorem storeWf_mono (st : SessionStore) (now now' : Nat) (h : now ≤ now')
    (hwf : StoreWf st now) : StoreWf st now' :=
  fun p hp => ⟨(hwf p hp).1, (hwf p hp).2.trans h⟩

theorem storeWf_insert_create (st : SessionStore) (tok un : String) (now now' : Nat)
    (h : now ≤ now') (hwf : StoreWf st now) :
    StoreWf (st.insert (create_session tok un now')) now' := by
  intro p hp
  rcases mem_assocInsert st.sessions (create_session tok un now').token
      (create_session tok un now') p hp with hp' | hp'
  · rw [hp']; exact ⟨le_refl _, le_refl _⟩
  · exact ⟨(hwf p hp').1, (hwf p hp').2.trans h⟩

theorem storeWf_refreshLive (st : SessionStore) (token : String) (now now' : Nat)
    (h : now ≤ now') (hwf : StoreWf st now) :
    StoreWf ⟨refreshLiveEntries st.sessions token now'⟩ now' := by
  intro p hp
  rcases mem_refreshLiveEntries st.sessions token now' p hp with hp' | ⟨s, hsmem, rfl⟩
  · exact ⟨(hwf p hp').1, (hwf p hp').2.trans h⟩
  · have h2 := hwf (token, s) hsmem
    exact ⟨h2.1.trans (h2.2.trans h), le_refl _⟩

/-! ### Claim theorems -/

/-- C1 (amended: the code's error string is "Invalid or expired session",
with a capital I): for every session token that does not resolve to a live
(present and non-expired) session, `kernel_request` fails with the error
"Invalid or expired session" and performs no worker I/O: the store and the
worker handle are returned untouched, so no request is dispatched to the
worker and the handle is not started. -/
theorem C1_invalid_session_no_worker_io (kernel : Option KernelProcess)
    (store : SessionStore) (resp : String → Json → Except String Json) (now : Nat)
    (token method : String) (params : Json)
    (h : store.get token now = none) :
    kernel_request kernel store resp now token method params =
      ⟨Except.error "Invalid or expired session", store, kernel⟩ ∧
    kernelSent (kernel_request kernel store resp now token method params).kernel =
      kernelSent kernel := by
  have hv : validate_session store token now = none := by
    simp [validate_session, h]
  constructor
  · simp [kernel_request, hv]
  · simp [kernel_request, hv]

/-- C1 counterexample: at the unknown token "tok" over an empty store, the
call fails, but its error string is "Invalid or expired session", not the
claimed "invalid or expired session". -/
theorem C1_counterexample :
    SessionStore.get ⟨[]⟩ "tok" 0 = none ∧
    (kernel_request none ⟨[]⟩ (fun _ _ => Except.ok Json.null) 0 "tok" "ping"
        Json.null).result = Except.error "Invalid or expired session" ∧
    ("Invalid or expired session" : String) ≠ "invalid or expired session" := by
  refine ⟨rfl, rfl, by decide⟩

/-- C1 witness: the amended theorem applied at a concrete unknown token. -/
theorem C1_witness :
    SessionStore.get ⟨[]⟩ "tok" 0 = none ∧
    kernel_request none ⟨[]⟩ (fun _ _ => Except.ok Json.null) 0 "tok" "ping" Json.null =
      ⟨Except.error "Invalid or expired session", ⟨[]⟩, none⟩ := by
  refine ⟨rfl, ?_⟩
  exact (C1_invalid_session_no_worker_io none ⟨[]⟩ (fun _ _ => Except.ok Json.null)
    0 "tok" "ping" Json.null rfl).1

/-- C4: `get` and `get_mut` agree; they return nothing exactly when the token
is absent or the stored session is expired; and on an expired-but-present
token the reads return nothing while the entry itself stays in the map
(the reads are pure functions of the store and evict nothing). -/
theorem C4_lazy_expiry_reads (st : SessionStore) (token : String) (now : Nat) :
    st.get_mut token now = st.get token now ∧
    (st.get token now = none ↔
      assocLookup st.sessions token = none ∨
      ∃ s, assocLookup st.sessions token = some s ∧ s.is_expired now = true) ∧
    (∀ s, assocLookup st.sessions token = some s → s.is_expired now = true →
      st.get token now = none ∧ st.get_mut token now = none ∧
      assocLookup st.sessions token = some s) := by
  refine ⟨rfl, ?_, ?_⟩
  · cases h : assocLookup st.sessions token with
    | none => simp [SessionStore.get, h]
    | some s =>
        by_cases he : s.is_expired now
        · simp [SessionStore.get, h, he]
        · simp [SessionStore.get, h, he]
  · intro s hs he
    exact ⟨by simp [SessionStore.get, hs, he],
           by simp [SessionStore.get_mut, hs, he], hs⟩

/-- C4 witness: an expired-but-still-present session is invisible to `get`
and `get_mut` yet remains in the map. -/
theorem C4_witness :
    SessionStore.get ⟨[("t", ⟨"t", "u", 0, 0⟩)]⟩ "t" 2000 = none ∧
    SessionStore.get_mut ⟨[("t", ⟨"t", "u", 0, 0⟩)]⟩ "t" 2000 = none ∧
    assocLookup (SessionStore.mk [("t", ⟨"t", "u", 0, 0⟩)]).sessions "t" =
      some ⟨"t", "u", 0, 0⟩ := by
  exact (C4_lazy_expiry_reads ⟨[("t", ⟨"t", "u", 0, 0⟩)]⟩ "t" 2000).2.2
    ⟨"t", "u", 0, 0⟩ (by rfl) (by decide)

/-- C5: `cleanup_expired` removes exactly the entries whose session is
expired; every non-expired entry remains in the map with all of its fields
unchanged (membership of the identical key/session pair). -/
theorem C5_cleanup_expired_exact (st : SessionStore) (now : Nat)
    (token : String) (s : Session) :
    (token, s) ∈ (st.cleanup_expired now).sessions ↔
      (token, s) ∈ st.sessions ∧ s.is_expired now = false := by
  simp [SessionStore.cleanup_expired, List.mem_filter, Bool.not_eq_true']

/-- C7: `auth_validate` returns true exactly when the token resolves to a
present, non-expired session, and it returns the store unchanged — in
particular no `last_activity` refresh happens. -/
theorem C7_validate_pure_probe (st : SessionStore) (token : String) (now : Nat) :
    ((auth_validate st token now).1 = true ↔
      ∃ s, assocLookup st.sessions token = some s ∧ s.is_expired now = false) ∧
    (auth_validate st token now).2 = st := by
  refine ⟨?_, rfl⟩
  cases h : assocLookup st.sessions token with
  | none => simp [auth_validate, SessionStore.get, h]
  | some s =>
      by_cases he : s.is_expired now
      · simp [auth_validate, SessionStore.get, h, he]
      · simp [auth_validate, SessionStore.get, h, he]

/-- C8: `refresh` sets `last_activity` to the current time; repeating it at
the same instant is a no-op, a later refresh overwrites an earlier one
(last-write-wins), and under a monotone clock successive refreshes leave
`last_activity` non-decreasing. -/
theorem C8_refresh_idempotent_monotone (s : Session) (t1 t2 : Nat) :
    (s.refresh t1).last_activity = t1 ∧
    (s.refresh t1).refresh t1 = s.refresh t1 ∧
    (s.refresh t1).refresh t2 = s.refresh t2 ∧
    (t1 ≤ t2 → (s.refresh t1).last_activity ≤ ((s.refresh t1).refresh t2).last_activity) := by
  exact ⟨rfl, rfl, rfl, fun h => h⟩

/-- C8 witness: the theorem applied to a concrete session at times 3 ≤ 5. -/
theorem C8_witness :
    ((⟨"t", "u", 0, 0⟩ : Session).refresh 3).last_activity = 3 ∧
    ((⟨"t", "u", 0, 0⟩ : Session).refresh 3).last_activity ≤
      (((⟨"t", "u", 0, 0⟩ : Session).refresh 3).refresh 5).last_activity := by
  have h := C8_refresh_idempotent_monotone ⟨"t", "u", 0, 0⟩ 3 5
  exact ⟨h.1, h.2.2.2 (by decide)⟩

/-- C2: for every worker response to `auth_login` (with the username passing
the shape check): on success with both a token and a username present, the
command stores, keyed by that token, a session whose `created_at` and
`last_activity` both equal the current time; on failure it returns the
structured failure and leaves the store unchanged. -/
theorem C2_login_store_update (kernel : Option KernelProcess) (store : SessionStore)
    (resp : String → Json → Except String Json) (now : Nat)
    (username password : String) (r : Json) (ar : AuthResult)
    (hshape : (username.isEmpty || 32 < username.utf8ByteSize) = false)
    (hresp : resp "auth/login" (Json.obj [("username", Json.str username),
        ("password", Json.str password)]) = Except.ok r)
    (hparse : parseAuthResult r = Except.ok ar) :
    (∀ tok un, ar.success = true → ar.session_token = some tok → ar.username = some un →
      (auth_login kernel store resp now username password).result = Except.ok ar ∧
      (auth_login kernel store resp now username password).store =
        store.insert (create_session tok un now) ∧
      assocLookup (auth_login kernel store resp now username password).store.sessions tok =
        some (create_session tok un now) ∧
      (create_session tok un now).created_at = now ∧
      (create_session tok un now).last_activity = now) ∧
    (ar.success = false →
      (auth_login kernel store resp now username password).result = Except.ok ar ∧
      (auth_login kernel store resp now username password).store = store) := by
  constructor
  · intro tok un hs htok hun
    refine ⟨?_, ?_, ?_, rfl, rfl⟩
    · cases kernel <;>
        simp [auth_login, hshape, KernelProcess.request, KernelProcess.start,
          hresp, hparse, hs, htok, hun]
    · cases kernel <;>
        simp [auth_login, hshape, KernelProcess.request, KernelProcess.start,
          hresp, hparse, hs, htok, hun]
    · cases kernel <;>
        simp [auth_login, hshape, KernelProcess.request, KernelProcess.start,
          hresp, hparse, hs, htok, hun, SessionStore.insert, create_session,
          assocLookup_insert_self]
  · intro hs
    constructor <;> cases kernel <;>
      simp [auth_login, hshape, KernelProcess.request, KernelProcess.start,
        hresp, hparse, hs]

/-- C2 witness: the spec scenario — the worker answers success with token
"tok-1" and username "alice", and the store subsequently resolves "tok-1" to
a session with username "alice" and both timestamps equal to now. -/
theorem C2_witness :
    (auth_login none ⟨[]⟩
        (fun _ _ => Except.ok (Json.obj [("success", Json.bool true),
          ("session_token", Json.str "tok-1"), ("username", Json.str "alice")]))
        5 "alice" "pw").store =
      SessionStore.insert ⟨[]⟩ (create_session "tok-1" "alice" 5) ∧
    ((SessionStore.insert ⟨[]⟩ (create_session "tok-1" "alice" 5)).get "tok-1" 5).map
        Session.username = some "alice" := by
  have h := (C2_login_store_update none ⟨[]⟩
      (fun _ _ => Except.ok (Json.obj [("success", Json.bool true),
        ("session_token", Json.str "tok-1"), ("username", Json.str "alice")]))
      5 "alice" "pw"
      (Json.obj [("success", Json.bool true), ("session_token", Json.str "tok-1"),
        ("username", Json.str "alice")])
      ⟨true, some "tok-1", some "alice", none⟩
      (by decide) rfl rfl).1 "tok-1" "alice" rfl rfl rfl
  exact ⟨h.2.1, rfl⟩

/-- C6 (amended: the rejection threshold is the username's UTF-8 byte length,
Rust's `String::len`, not its character count): `auth_login` rejects an empty
or longer-than-32-bytes username with the structured failure
`error = "Invalid username"`, touching neither the store nor the worker;
any other username is forwarded to the worker's auth/login method together
with the password. -/
theorem C6_username_shape_check (kernel : Option KernelProcess) (store : SessionStore)
    (resp : String → Json → Except String Json) (now : Nat)
    (username password : String) :
    ((username.isEmpty || 32 < username.utf8ByteSize) = true →
      auth_login kernel store resp now username password =
        ⟨Except.ok { success := false, session_token := none, username := none,
                     error := some "Invalid username" }, store, kernel⟩) ∧
    ((username.isEmpty || 32 < username.utf8ByteSize) = false →
      kernelSent (auth_login kernel store resp now username password).kernel =
        kernelSent kernel ++
          [("auth/login", Json.obj [("username", Json.str username),
                                    ("password", Json.str password)])]) := by
  constructor
  · intro h
    simp [auth_login, h]
  · intro h
    cases kernel <;>
      simp only [auth_login, h, Bool.false_eq_true, if_false,
        KernelProcess.request, KernelProcess.start] <;>
      (repeat' split) <;> simp [kernelSent]

/-- C6 counterexample: a username of 17 two-byte characters (17 ≤ 32
characters, not empty) is nonetheless rejected without any worker call,
because the code compares the UTF-8 byte length (34 > 32). -/
theorem C6_counterexample :
    ("ααααααααααααααααα" : String).isEmpty = false ∧
    ("ααααααααααααααααα" : String).length = 17 ∧
    (auth_login none ⟨[]⟩ (fun _ _ => Except.ok Json.null) 0
        "ααααααααααααααααα" "pw").result =
      Except.ok { success := false, session_token := none, username := none,
                  error := some "Invalid username" } ∧
    (auth_login none ⟨[]⟩ (fun _ _ => Except.ok Json.null) 0
        "ααααααααααααααααα" "pw").kernel = none := by
  have hcond : ("ααααααααααααααααα" : String).isEmpty = true ∨
      32 < ("ααααααααααααααααα" : String).utf8ByteSize := Or.inr (by decide)
  refine ⟨by decide, by decide, ?_, ?_⟩ <;> simp [auth_login, hcond]

/-- C6 witness: the amended theorem applied at the empty username (rejected,
nothing dispatched) and at "alice" (forwarded to auth/login). -/
theorem C6_witness :
    auth_login none ⟨[]⟩ (fun _ _ => Except.ok Json.null) 0 "" "pw" =
      ⟨Except.ok { success := false, session_token := none, username := none,
                   error := some "Invalid username" }, ⟨[]⟩, none⟩ ∧
    kernelSent (auth_login none ⟨[]⟩ (fun _ _ => Except.ok Json.null) 0
        "alice" "pw").kernel =
      kernelSent (none : Option KernelProcess) ++
        [("auth/login", Json.obj [("username", Json.str "alice"),
                                  ("password", Json.str "pw")])] := by
  exact ⟨(C6_username_shape_check none ⟨[]⟩ (fun _ _ => Except.ok Json.null)
            0 "" "pw").1 rfl,
         (C6_username_shape_check none ⟨[]⟩ (fun _ _ => Except.ok Json.null)
            0 "alice" "pw").2 rfl⟩

/-- C3: for every validated `kernel_request` call, the payload dispatched to
the worker is the caller's params normalized to an object — an object is
kept as-is, null becomes the empty object, any other bare value is wrapped
under the single field "value" — with a "__session" field injected carrying
the session's username and a session_id equal to the first 16 characters of
the token. -/
theorem C3_enriched_payload (kernel : Option KernelProcess) (store : SessionStore)
    (resp : String → Json → Except String Json) (now : Nat)
    (token method : String) (params : Json) (s : Session)
    (hs : assocLookup store.sessions token = some s) (he : s.is_expired now = false) :
    ∃ pf : List (String × Json),
      kernelSent (kernel_request kernel store resp now token method params).kernel =
        kernelSent kernel ++ [(method, Json.obj pf)] ∧
      assocLookup pf "__session" = some (sessionObj s token) ∧
      sessionObj s token = Json.obj [("username", Json.str s.username),
        ("session_id", Json.str (String.take token 16))] ∧
      (∀ map, params = Json.obj map →
        pf = assocInsert map "__session" (sessionObj s token)) ∧
      (params = Json.null → pf = [("__session", sessionObj s token)]) ∧
      ((∀ map, params ≠ Json.obj map) → params ≠ Json.null →
        pf = [("value", params), ("__session", sessionObj s token)]) := by
  obtain ⟨base, heq, hobj, hnull, hother⟩ :=
    kernel_request_valid_dispatch kernel store resp now token method params s hs he
  refine ⟨assocInsert base "__session" (sessionObj s token), ?_, ?_, rfl, ?_, ?_, ?_⟩
  · rw [heq]
    simp [kernelSent]
  · exact assocLookup_insert_self base "__session" (sessionObj s token)
  · intro map hm
    rw [hobj map hm]
  · intro hn
    rw [hnull hn]
    simp [assocInsert]
  · intro hno hnn
    rw [hother hno hnn]
    simp [assocInsert]

/-- C3 witness: the spec scenario — a valid call with method "echo" and
params `x = 1` makes the worker receive the params plus the injected
"__session" object naming the session's user and the truncated token. -/
theorem C3_witness :
    kernelSent (kernel_request none ⟨[("tok", ⟨"tok", "alice", 0, 0⟩)]⟩
        (fun _ _ => Except.ok Json.null) 5 "tok" "echo"
        (Json.obj [("x", Json.num 1)])).kernel =
      [("echo", Json.obj [("x", Json.num 1),
        ("__session", Json.obj [("username", Json.str "alice"),
          ("session_id", Json.str "tok")])])] := by
  obtain ⟨pf, h1, _, _, h4, _, _⟩ :=
    C3_enriched_payload none ⟨[("tok", ⟨"tok", "alice", 0, 0⟩)]⟩
      (fun _ _ => Except.ok Json.null) 5 "tok" "echo"
      (Json.obj [("x", Json.num 1)]) ⟨"tok", "alice", 0, 0⟩ rfl (by decide)
  rw [h4 [("x", Json.num 1)] rfl] at h1
  have ht : String.take "tok" 16 = "tok" := by decide
  simpa [assocInsert, sessionObj, ht, kernelSent] using h1

/-- C10: for every validated `kernel_request` call, the "__session" field in
the dispatched payload equals the freshly validated session identity whatever
the caller's params are: two calls with arbitrary distinct params (including
one that forges its own "__session" key) dispatch the same "__session" value,
namely the validated one. -/
theorem C10_session_field_overridden (kernel : Option KernelProcess) (store : SessionStore)
    (resp : String → Json → Except String Json) (now : Nat)
    (token method : String) (params1 params2 : Json) (s : Session)
    (hs : assocLookup store.sessions token = some s) (he : s.is_expired now = false) :
    ∃ pf1 pf2 : List (String × Json),
      kernelSent (kernel_request kernel store resp now token method params1).kernel =
        kernelSent kernel ++ [(method, Json.obj pf1)] ∧
      kernelSent (kernel_request kernel store resp now token method params2).kernel =
        kernelSent kernel ++ [(method, Json.obj pf2)] ∧
      assocLookup pf1 "__session" = some (sessionObj s token) ∧
      assocLookup pf2 "__session" = some (sessionObj s token) ∧
      assocLookup pf1 "__session" = assocLookup pf2 "__session" ∧
      (∀ map, params1 = Json.obj map →
        pf1 = assocInsert map "__session" (sessionObj s token)) ∧
      (∀ map, params2 = Json.obj map →
        pf2 = assocInsert map "__session" (sessionObj s token)) := by
  obtain ⟨base1, heq1, hobj1, _, _⟩ :=
    kernel_request_valid_dispatch kernel store resp now token method params1 s hs he
  obtain ⟨base2, heq2, hobj2, _, _⟩ :=
    kernel_request_valid_dispatch kernel store resp now token method params2 s hs he
  refine ⟨assocInsert base1 "__session" (sessionObj s token),
          assocInsert base2 "__session" (sessionObj s token),
          ?_, ?_, ?_, ?_, ?_, ?_, ?_⟩
  · rw [heq1]
    simp [kernelSent]
  · rw [heq2]
    simp [kernelSent]
  · exact assocLookup_insert_self base1 "__session" (sessionObj s token)
  · exact assocLookup_insert_self base2 "__session" (sessionObj s token)
  · rw [assocLookup_insert_self base1 "__session" (sessionObj s token),
        assocLookup_insert_self base2 "__session" (sessionObj s token)]
  · intro map hm
    rw [hobj1 map hm]
  · intro map hm
    rw [hobj2 map hm]

/-- C10 witness: a caller forging its own "__session" key has it overwritten
— the worker receives the same validated identity as for an honest empty
params object. -/
theorem C10_witness :
    kernelSent (kernel_request none ⟨[("tok", ⟨"tok", "alice", 0, 0⟩)]⟩
        (fun _ _ => Except.ok Json.null) 5 "tok" "m"
        (Json.obj [("__session", Json.str "forged")])).kernel =
      [("m", Json.obj [("__session", Json.obj [("username", Json.str "alice"),
        ("session_id", Json.str "tok")])])] ∧
    kernelSent (kernel_request none ⟨[("tok", ⟨"tok", "alice", 0, 0⟩)]⟩
        (fun _ _ => Except.ok Json.null) 5 "tok" "m" (Json.obj [])).kernel =
      [("m", Json.obj [("__session", Json.obj [("username", Json.str "alice"),
        ("session_id", Json.str "tok")])])] := by
  obtain ⟨pf1, pf2, h1, h2, _, _, _, hc1, hc2⟩ :=
    C10_session_field_overridden none ⟨[("tok", ⟨"tok", "alice", 0, 0⟩)]⟩
      (fun _ _ => Except.ok Json.null) 5 "tok" "m"
      (Json.obj [("__session", Json.str "forged")]) (Json.obj [])
      ⟨"tok", "alice", 0, 0⟩ rfl (by decide)
  rw [hc1 [("__session", Json.str "forged")] rfl] at h1
  rw [hc2 [] rfl] at h2
  have ht : String.take "tok" 16 = "tok" := by decide
  constructor
  · simpa [assocInsert, sessionObj, ht, kernelSent] using h1
  · simpa [assocInsert, sessionObj, ht, kernelSent] using h2

/-- C9: sessions are created with `last_activity = created_at`; and under a
monotone clock, insertion of a freshly created session, `auth_refresh`, and
`kernel_request` (whose activity bump goes through `get_mut` + `refresh`)
each preserve the store invariant that every stored session satisfies
`created_at ≤ last_activity` (with no timestamp ahead of the clock). -/
theorem C9_activity_invariant (now now' : Nat) (hnow : now ≤ now') :
    (∀ tok un, (create_session tok un now').created_at ≤
      (create_session tok un now').last_activity) ∧
    (∀ st tok un, StoreWf st now →
      StoreWf (SessionStore.insert st (create_session tok un now')) now') ∧
    (∀ st token, StoreWf st now → StoreWf (auth_refresh st token now').2 now') ∧
    (∀ kernel st resp token method params, StoreWf st now →
      StoreWf (kernel_request kernel st resp now' token method params).store now') := by
  refine ⟨fun tok un => le_refl _, ?_, ?_, ?_⟩
  · intro st tok un hwf
    exact storeWf_insert_create st tok un now now' hnow hwf
  · intro st token hwf
    cases h : st.get_mut token now' with
    | none => simpa [auth_refresh, h] using storeWf_mono st now now' hnow hwf
    | some s =>
        simpa [auth_refresh, h] using storeWf_refreshLive st token now now' hnow hwf
  · intro kernel st resp token method params hwf
    cases hv : validate_session st token now' with
    | none => simpa [kernel_request, hv] using storeWf_mono st now now' hnow hwf
    | some info =>
        simpa [kernel_request, hv] using storeWf_refreshLive st token now now' hnow hwf

/-- C9 witness: the invariant theorem applied to a fresh session inserted at
time 5 and then refreshed through `auth_refresh` at time 7. -/
theorem C9_witness :
    StoreWf (SessionStore.insert ⟨[]⟩ (create_session "tok" "alice" 5)) 5 ∧
    StoreWf (auth_refresh (SessionStore.insert ⟨[]⟩ (create_session "tok" "alice" 5))
      "tok" 7).2 7 := by
  have h0 : StoreWf ⟨[]⟩ 5 := fun p hp => nomatch hp
  have hins := (C9_activity_invariant 5 5 (le_refl 5)).2.1 ⟨[]⟩ "tok" "alice" h0
  exact ⟨hins, (C9_activity_invariant 5 7 (by decide)).2.2.1 _ "tok" hins⟩

end TalkingRock
